import Mathlib

/-!
Verification of the One Night Werewolf Assistant web backend
(src/main.py and src/backend/routes.py).

The program is a small HTTP application: two GET API routes returning
literal JSON payloads, a static-file mount under /static, and a root
route serving a single HTML file. We embed the route table, the
handlers, the startup filesystem checks and the per-request dispatch as
executable Lean functions over an explicit filesystem state. Behaviour
that the source delegates to the web framework (file responses, the
static mount, first-match dispatch) is modelled from the specification,
as marked on each definition.
-/

namespace Werewolf

/-- File contents as a list of byte values. -/
abbrev Bytes := List Nat

/-- A filesystem state: regular files (path segments to contents) and
directories, both relative to the application install directory
(the directory containing main.py). -/
structure FS where
  files : List (List String × Bytes)
  dirs : List (List String)
deriving DecidableEq

/-- Read a file at a path, if present. -/
def FS.readFile (fs : FS) (p : List String) : Option Bytes :=
  (fs.files.find? (fun e => e.1 == p)).map Prod.snd

/-- Whether a regular file exists at a path. -/
def FS.fileExists (fs : FS) (p : List String) : Bool :=
  (fs.readFile p).isSome

/-- Whether a directory exists at a path. -/
def FS.dirExists (fs : FS) (p : List String) : Bool :=
  fs.dirs.contains p

/-- A flat JSON object with string values, as returned by the two API
handlers in src/backend/routes.py. -/
abbrev JsonObj := List (String × String)

/-- Look up a field of a JSON object. -/
def jsonField (j : JsonObj) (k : String) : Option String :=
  (j.find? (fun e => e.1 == k)).map Prod.snd

/-- Handler body of GET /api/health (src/backend/routes.py,
health_check): the literal dict returned by the Python function. -/
def health_check : JsonObj :=
  [("status", "healthy"),
   ("message", "One Night Werewolf Assistant API is running")]

/-- Handler body of GET /api/info (src/backend/routes.py, get_info):
the literal dict returned by the Python function. -/
def get_info : JsonObj :=
  [("app", "One Night Werewolf Assistant"),
   ("version", "1.0.0"),
   ("description", "A web assistant for playing One Night Werewolf")]

/-- The title passed to the FastAPI constructor in src/main.py. -/
def app_title : String := "One Night Werewolf Assistant"

/-- The description passed to the FastAPI constructor in src/main.py. -/
def app_description : String := "A web assistant for playing One Night Werewolf"

/-- The version passed to the FastAPI constructor in src/main.py. -/
def app_version : String := "1.0.0"

/-- The static directory of src/main.py: Path(main.py).parent /
"frontend" / "static", as segments relative to the install directory. -/
def static_dir : List String := ["frontend", "static"]

/-- The root HTML file of src/main.py, read_root: Path(main.py).parent /
"frontend" / "index.html", as segments relative to the install
directory. -/
def index_html : List String := ["frontend", "index.html"]

/-- An HTTP response body: a JSON payload, raw file bytes, or empty. -/
inductive Body
  | jsonBody (j : JsonObj)
  | fileBody (b : Bytes)
  | emptyBody
deriving DecidableEq

/-- An HTTP response: a status code and a body. -/
structure Response where
  status : Nat
  body : Body
deriving DecidableEq

/-- The standard not-found response of the framework. -/
def notFound : Response := ⟨404, Body.emptyBody⟩

/-- Modelled from the spec: the framework file response used by
read_root in src/main.py (FileResponse is not under src/). It serves
the designated file byte-for-byte with status 200 when the file exists,
and fails with a not-found condition when the file is absent
("404 if file missing"). -/
def fileResponse (fs : FS) (p : List String) : Response :=
  match fs.readFile p with
  | some b => ⟨200, Body.fileBody b⟩
  | none => notFound

/-- Handler of GET / (src/main.py, read_root): serve
frontend/index.html via a file response. -/
def read_root (fs : FS) : Response :=
  fileResponse fs index_html

/-- Modelled from the spec: the static-file application mounted at
/static in src/main.py (StaticFiles is not under src/). A GET for a
path under the static directory serves that file verbatim; a missing
file yields the not-found response ("404 if file missing"). -/
def staticFiles (fs : FS) (method : String) (rest : List String) : Response :=
  if method == "GET" then fileResponse fs (static_dir ++ rest) else notFound

/-- An HTTP request: a method and the URL path split at slashes, so
GET /api/health is ⟨"GET", ["api", "health"]⟩ and GET / is
⟨"GET", []⟩. -/
structure Request where
  method : String
  path : List String
deriving DecidableEq

/-- An entry of the route table: a match predicate on the request and a
handler. -/
structure RouteEntry where
  accepts : Request → Bool
  handler : FS → Request → Response

/-- Route added by include_router for GET /api/health
(src/backend/routes.py). -/
def healthRoute : RouteEntry :=
  ⟨fun r => r.method == "GET" && r.path == ["api", "health"],
   fun _ _ => ⟨200, Body.jsonBody health_check⟩⟩

/-- Route added by include_router for GET /api/info
(src/backend/routes.py). -/
def infoRoute : RouteEntry :=
  ⟨fun r => r.method == "GET" && r.path == ["api", "info"],
   fun _ _ => ⟨200, Body.jsonBody get_info⟩⟩

/-- Route added by app.mount for the /static prefix (src/main.py):
matches any path whose first segment is static, and hands the remaining
segments to the static-file application. -/
def staticRoute : RouteEntry :=
  ⟨fun r => match r.path with
    | "static" :: _ => true
    | _ => false,
   fun fs r => staticFiles fs r.method r.path.tail⟩

/-- Route added by the app.get decorator for GET / (src/main.py). -/
def rootRoute : RouteEntry :=
  ⟨fun r => r.method == "GET" && r.path == ([] : List String),
   fun fs _ => read_root fs⟩

/-- The route table assembled at startup in src/main.py, in
registration order: include_router adds the two API routes, then the
static mount, then the root route. -/
def routeTable : List RouteEntry :=
  [healthRoute, infoRoute, staticRoute, rootRoute]

/-- Modelled from the spec: the framework dispatch over a route table
(FastAPI request matching is not under src/) — the first entry whose
predicate matches handles the request, and no match yields the standard
not-found response. -/
def firstMatch : List RouteEntry → FS → Request → Response
  | [], _, _ => notFound
  | e :: rest, fs, r => if e.accepts r then e.handler fs r else firstMatch rest fs r

/-- Per-request behaviour of the whole application of src/main.py:
dispatch over its route table. -/
def app_dispatch (fs : FS) (r : Request) : Response :=
  firstMatch routeTable fs r

/-- Modelled from the spec: the startup filesystem requirement — the
static-file mount of src/main.py checks at startup that its directory
exists ("startup configuration error", fatal). src/main.py performs no
other startup filesystem check; in particular nothing checks the root
HTML file at startup. -/
def startup_succeeds (fs : FS) : Bool :=
  fs.dirExists static_dir

/-- The mutable world visible to handlers: only the filesystem. -/
structure World where
  fs : FS
deriving DecidableEq

/-- One request step of the server: the handlers of
src/backend/routes.py and src/main.py read at most the filesystem
(read_root reads the root HTML file) and perform no write, so the world
is returned unchanged alongside the response. -/
def handle (w : World) (r : Request) : Response × World :=
  (app_dispatch w.fs r, w)

/-- The runtime configuration of the server: listening host and port
and the locations of the two filesystem assets. -/
structure ServerConfig where
  host : String
  port : Nat
  staticDirPath : List String
  indexHtmlPath : List String
deriving DecidableEq

/-- The server configuration as a function of the process environment:
src/main.py passes the literal host 0.0.0.0 and port 8000 to
uvicorn.run and derives both asset paths from the location of main.py;
it reads no environment variable and no command-line argument, so the
environment is ignored. -/
def serverConfig (_env : List (String × String)) : ServerConfig :=
  ⟨"0.0.0.0", 8000, static_dir, index_html⟩

/-- A file response either succeeds with status 200 or is the standard
not-found response. -/
theorem fileResponse_cases (fs : FS) (p : List String) :
    (fileResponse fs p).status = 200 ∨ fileResponse fs p = notFound := by
  unfold fileResponse
  cases h : fs.readFile p <;> simp

/-- Dispatch over a table none of whose entries accepts the request
yields the standard not-found response. -/
theorem firstMatch_none (es : List RouteEntry) (fs : FS) (r : Request)
    (h : ∀ e ∈ es, e.accepts r = false) : firstMatch es fs r = notFound := by
  induction es with
  | nil => rfl
  | cons a rest ih =>
    have ha := h a (List.mem_cons_self a rest)
    simp only [firstMatch, ha, Bool.false_eq_true, if_false]
    exact ih (fun e he => h e (List.mem_cons_of_mem a he))

/-- Dispatch agrees with the first entry of the table accepting the
request, in table order. -/
theorem firstMatch_eq_find (es : List RouteEntry) (fs : FS) (r : Request) (e : RouteEntry)
    (h : es.find? (fun x => x.accepts r) = some e) :
    firstMatch es fs r = e.handler fs r := by
  induction es with
  | nil => simp [List.find?] at h
  | cons a rest ih =>
    by_cases ha : a.accepts r = true
    · simp only [List.find?, ha] at h
      cases h
      simp [firstMatch, ha]
    · have ha' : a.accepts r = false := by simpa using ha
      simp only [List.find?, ha'] at h
      simp only [firstMatch, ha', Bool.false_eq_true, if_false]
      exact ih h

/-- Claim C1: every GET /api/health request returns status 200 with
exactly the payload status healthy / message "One Night Werewolf
Assistant API is running", in every world, leaving the world unchanged
— so the response is identical however many times the route is called,
and the handler never fails. -/
theorem C1_health_endpoint (w : World) :
    handle w ⟨"GET", ["api", "health"]⟩ =
      (⟨200, Body.jsonBody [("status", "healthy"),
        ("message", "One Night Werewolf Assistant API is running")]⟩, w) := rfl

/-- Claim C2: every GET /api/info request returns status 200 with
exactly the payload app "One Night Werewolf Assistant" / version
"1.0.0" / description "A web assistant for playing One Night Werewolf",
in every world, leaving the world unchanged — the payload is constant
for the lifetime of the process. -/
theorem C2_info_endpoint (w : World) :
    handle w ⟨"GET", ["api", "info"]⟩ =
      (⟨200, Body.jsonBody [("app", "One Night Werewolf Assistant"),
        ("version", "1.0.0"),
        ("description", "A web assistant for playing One Night Werewolf")]⟩, w) := rfl

/-- Claim C3: a GET / request is answered with status 200 and a body
equal byte-for-byte to the root HTML file when that file exists on
disk, and with the not-found response when the file is absent at
request time. -/
theorem C3_root_route (fs : FS) :
    (∀ b, fs.readFile index_html = some b →
      app_dispatch fs ⟨"GET", []⟩ = ⟨200, Body.fileBody b⟩) ∧
    (fs.readFile index_html = none → app_dispatch fs ⟨"GET", []⟩ = notFound) := by
  constructor
  · intro b h
    simp [app_dispatch, routeTable, firstMatch, healthRoute, infoRoute, staticRoute,
      rootRoute, read_root, fileResponse, h]
  · intro h
    simp [app_dispatch, routeTable, firstMatch, healthRoute, infoRoute, staticRoute,
      rootRoute, read_root, fileResponse, h]

/-- Witness for C3: a concrete filesystem holding the root HTML file
with bytes [104, 105] serves it on GET /, and one without the file
yields the not-found response. -/
theorem C3_root_route_witness :
    (FS.readFile ⟨[(index_html, [104, 105])], [static_dir]⟩ index_html = some [104, 105] ∧
     app_dispatch ⟨[(index_html, [104, 105])], [static_dir]⟩ ⟨"GET", []⟩ =
       ⟨200, Body.fileBody [104, 105]⟩) ∧
    (FS.readFile ⟨[], [static_dir]⟩ index_html = none ∧
     app_dispatch ⟨[], [static_dir]⟩ ⟨"GET", []⟩ = notFound) :=
  ⟨⟨by decide, (C3_root_route _).1 [104, 105] (by decide)⟩,
   ⟨by decide, (C3_root_route _).2 (by decide)⟩⟩

/-- Claim C4 counterexample: on a filesystem where the static directory
exists but the root HTML file is absent, startup succeeds — src/main.py
performs no startup check of the root HTML file — refuting the claim
that the server never begins accepting connections when the root HTML
file is missing at startup. -/
theorem C4_counterexample :
    FS.fileExists ⟨[], [static_dir]⟩ index_html = false ∧
    startup_succeeds ⟨[], [static_dir]⟩ = true := by decide

/-- Claim C4 (amended): startup fails fatally exactly when the
static-asset directory is absent at startup; a missing root HTML file
does not prevent startup and surfaces only as a request-time not-found
on GET /. -/
theorem C4_startup_check (fs : FS) :
    (startup_succeeds fs = false ↔ fs.dirExists static_dir = false) ∧
    (fs.readFile index_html = none → app_dispatch fs ⟨"GET", []⟩ = notFound) := by
  refine ⟨Iff.rfl, fun h => ?_⟩
  simp [app_dispatch, routeTable, firstMatch, healthRoute, infoRoute, staticRoute,
    rootRoute, read_root, fileResponse, h]

/-- Witness for C4 (amended): on the concrete filesystem with the
static directory but no root HTML file, GET / yields the not-found
response. -/
theorem C4_startup_check_witness :
    FS.readFile ⟨[], [static_dir]⟩ index_html = none ∧
    app_dispatch ⟨[], [static_dir]⟩ ⟨"GET", []⟩ = notFound :=
  ⟨by decide, (C4_startup_check _).2 (by decide)⟩

/-- Claim C5: dispatch is first-match over the fixed route table — the
two API routes, then the static mount, then the root route: the first
entry accepting the request handles it, and a request accepted by no
entry yields the standard not-found response. -/
theorem C5_first_match_routing (fs : FS) (r : Request) :
    (∀ e, routeTable.find? (fun x => x.accepts r) = some e →
      app_dispatch fs r = e.handler fs r) ∧
    ((∀ e ∈ routeTable, e.accepts r = false) → app_dispatch fs r = notFound) :=
  ⟨fun e h => firstMatch_eq_find routeTable fs r e h,
   fun h => firstMatch_none routeTable fs r h⟩

/-- Witness for C5: GET /api/health is accepted first by the health
route, which handles it, and POST /nope is accepted by no entry and
yields the not-found response. -/
theorem C5_first_match_routing_witness :
    (List.find? (fun x => x.accepts ⟨"GET", ["api", "health"]⟩) routeTable = some healthRoute ∧
     app_dispatch ⟨[], []⟩ ⟨"GET", ["api", "health"]⟩ =
       RouteEntry.handler healthRoute ⟨[], []⟩ ⟨"GET", ["api", "health"]⟩) ∧
    ((∀ e ∈ routeTable, e.accepts ⟨"POST", ["nope"]⟩ = false) ∧
     app_dispatch ⟨[], []⟩ ⟨"POST", ["nope"]⟩ = notFound) :=
  ⟨⟨rfl, (C5_first_match_routing _ _).1 healthRoute rfl⟩,
   ⟨by decide, (C5_first_match_routing _ _).2 (by decide)⟩⟩

/-- Claim C6: every request-time error the application produces is a
not-found: every response either has status 200 or is the standard
not-found response, and in particular a request accepted by no route
entry yields the not-found response. -/
theorem C6_error_taxonomy (fs : FS) (r : Request) :
    ((app_dispatch fs r).status = 200 ∨ app_dispatch fs r = notFound) ∧
    ((∀ e ∈ routeTable, e.accepts r = false) → app_dispatch fs r = notFound) := by
  refine ⟨?_, fun h => firstMatch_none routeTable fs r h⟩
  rcases r with ⟨m, p⟩
  simp only [app_dispatch, routeTable, firstMatch]
  split_ifs with h1 h2 h3 h4
  · left; rfl
  · left; rfl
  · rcases fileResponse_cases fs (static_dir ++ (Request.mk m p).path.tail) with h | h
    · simp only [staticRoute, staticFiles]
      split_ifs with hm
      · left; exact h
      · right; rfl
    · simp only [staticRoute, staticFiles]
      split_ifs with hm
      · right; exact h
      · right; rfl
  · rcases fileResponse_cases fs index_html with h | h
    · left; exact h
    · right; exact h
  · right; rfl

/-- Witness for C6: GET /api/does-not-exist is accepted by no route
entry and yields the not-found response. -/
theorem C6_error_taxonomy_witness :
    (∀ e ∈ routeTable, e.accepts ⟨"GET", ["api", "does-not-exist"]⟩ = false) ∧
    app_dispatch ⟨[], []⟩ ⟨"GET", ["api", "does-not-exist"]⟩ = notFound :=
  ⟨by decide, (C6_error_taxonomy _ _).2 (by decide)⟩

/-- Claim C7 counterexample: the configuration is a constant —
src/main.py passes literal host and port to the server and reads no
environment — so an environment requesting a different host and port is
ignored, refuting the claim that host, port and asset locations are
configurable. -/
theorem C7_counterexample :
    serverConfig [("HOST", "127.0.0.1"), ("PORT", "9000")] = serverConfig [] ∧
    (serverConfig [("HOST", "127.0.0.1"), ("PORT", "9000")]).host = "0.0.0.0" ∧
    (serverConfig [("HOST", "127.0.0.1"), ("PORT", "9000")]).port = 8000 := by decide

/-- Claim C7 (amended): the listening host and port are fixed at
0.0.0.0 and 8000, and the static directory and root HTML file are at
the fixed locations frontend/static and frontend/index.html relative to
the application's install location, for every environment. -/
theorem C7_fixed_config (env : List (String × String)) :
    serverConfig env =
      ⟨"0.0.0.0", 8000, ["frontend", "static"], ["frontend", "index.html"]⟩ := rfl

/-- Claim C8: a GET for a file under /static that does not exist in the
static directory yields the not-found response, and GET
/api/does-not-exist yields the not-found response. -/
theorem C8_missing_resources (fs : FS) (rest : List String) :
    (fs.readFile (static_dir ++ rest) = none →
      app_dispatch fs ⟨"GET", "static" :: rest⟩ = notFound) ∧
    app_dispatch fs ⟨"GET", ["api", "does-not-exist"]⟩ = notFound := by
  refine ⟨fun h => ?_, rfl⟩
  simp [app_dispatch, routeTable, firstMatch, healthRoute, infoRoute, staticRoute,
    staticFiles, fileResponse, h]

/-- Witness for C8: on a filesystem without frontend/static/missing.css,
GET /static/missing.css yields the not-found response. -/
theorem C8_missing_resources_witness :
    FS.readFile ⟨[], [static_dir]⟩ (static_dir ++ ["missing.css"]) = none ∧
    app_dispatch ⟨[], [static_dir]⟩ ⟨"GET", ["static", "missing.css"]⟩ = notFound :=
  ⟨by decide, (C8_missing_resources _ ["missing.css"]).1 (by decide)⟩

/-- Claim C9: the route handlers are deterministic and side-effect
free: every invocation leaves the world unchanged, the response to a
request does not depend on which request was handled before it, and a
pair of invocations yields the same pair of responses in either order. -/
theorem C9_handlers_pure (w : World) (r1 r2 : Request) :
    (handle w r1).2 = w ∧
    (handle ((handle w r2).2) r1).1 = (handle w r1).1 ∧
    ((handle w r1).1, (handle ((handle w r1).2) r2).1) =
      ((handle ((handle w r2).2) r1).1, (handle w r2).1) :=
  ⟨rfl, rfl, rfl⟩

/-- Claim C10: the three fields returned by GET /api/info equal, string
for string, the metadata passed to the FastAPI constructor in
src/main.py: app equals the title, version equals the version, and
description equals the description. -/
theorem C10_info_matches_metadata :
    jsonField get_info "app" = some app_title ∧
    jsonField get_info "version" = some app_version ∧
    jsonField get_info "description" = some app_description := by decide

end Werewolf
